import Mathlib

/-!
Verification of the `solana-movie-token-client` initialization script
(`src/index.ts`).  The script derives two program-derived addresses (PDAs)
from the hardcoded program id, assembles a single six-account instruction
with opcode byte `3`, wraps it in a transaction and submits it.

The shallow embedding below models bytes as `Nat` (values < 256), public
keys as 32-element byte lists, and reproduces the SDK primitives the script
calls — base58 decoding (`new PublicKey(string)`), SHA-256, the ed25519
off-curve check and `PublicKey.findProgramAddress` — as executable Lean
functions, so that the derived addresses can be computed inside proofs.
-/

set_option maxRecDepth 100000

namespace MovieTokenClient

/-! ## Byte-level helpers -/

/-- Little-endian interpretation of a byte list as a natural number. -/
def leDecode (bs : List Nat) : Nat :=
  bs.foldr (fun b acc => acc * 256 + b) 0

/-- Big-endian encoding of `n` into exactly `len` bytes (`BN.toArray(undefined, len)`
in the SDK: most significant byte first, left-padded with zeros). -/
def natToBytesBE : Nat → Nat → List Nat
  | 0, _ => []
  | len + 1, n => natToBytesBE len (n / 256) ++ [n % 256]

/-- ASCII bytes of a string (`Buffer.from(s)` for the ASCII seeds used here). -/
def strBytes (s : String) : List Nat :=
  s.toList.map Char.toNat

/-! ## Modular exponentiation (fuel-driven so the kernel can evaluate it) -/

def powModAux : Nat → Nat → Nat → Nat → Nat
  | 0, _, _, m => 1 % m
  | fuel + 1, b, e, m =>
    if e = 0 then 1 % m
    else
      let r := powModAux fuel (b * b % m) (e / 2) m
      if e % 2 = 1 then r * b % m else r

/-- Computes `b ^ e mod m` by binary exponentiation with 260 squarings of fuel
(enough for any exponent below `2 ^ 260`). -/
def powMod (b e m : Nat) : Nat :=
  powModAux 260 (b % m) e m

/-! ## SHA-256 (FIPS 180-4), over byte lists -/

def w32 (n : Nat) : Nat := n % 4294967296

/-- Rotates a 32-bit word right by `n` positions, on `Nat` values. -/
def rotr (n x : Nat) : Nat :=
  (x / 2 ^ n + x % 2 ^ n * 2 ^ (32 - n)) % 4294967296

def shr (n x : Nat) : Nat := x / 2 ^ n

def bigSigma0 (x : Nat) : Nat := rotr 2 x ^^^ rotr 13 x ^^^ rotr 22 x
def bigSigma1 (x : Nat) : Nat := rotr 6 x ^^^ rotr 11 x ^^^ rotr 25 x
def smallSigma0 (x : Nat) : Nat := rotr 7 x ^^^ rotr 18 x ^^^ shr 3 x
def smallSigma1 (x : Nat) : Nat := rotr 17 x ^^^ rotr 19 x ^^^ shr 10 x

def chFn (x y z : Nat) : Nat := x &&& y ^^^ (x ^^^ 4294967295) &&& z
def majFn (x y z : Nat) : Nat := x &&& y ^^^ x &&& z ^^^ y &&& z

/-- Round constants of SHA-256, written in decimal. -/
def sha256K : List Nat :=
  [1116352408, 1899447441, 3049323471, 3921009573, 961987163,
   1508970993, 2453635748, 2870763221, 3624381080, 310598401,
   607225278, 1426881987, 1925078388, 2162078206, 2614888103,
   3248222580, 3835390401, 4022224774, 264347078, 604807628,
   770255983, 1249150122, 1555081692, 1996064986, 2554220882,
   2821834349, 2952996808, 3210313671, 3336571891, 3584528711,
   113926993, 338241895, 666307205, 773529912, 1294757372,
   1396182291, 1695183700, 1986661051, 2177026350, 2456956037,
   2730485921, 2820302411, 3259730800, 3345764771, 3516065817,
   3600352804, 4094571909, 275423344, 430227734, 506948616,
   659060556, 883997877, 958139571, 1322822218, 1537002063,
   1747873779, 1955562222, 2024104815, 2227730452, 2361852424,
   2428436474, 2756734187, 3204031479, 3329325298]

/-- Initial hash state of SHA-256, written in decimal. -/
def sha256H0 : List Nat :=
  [1779033703, 3144134277, 1013904242, 2773480762,
   1359893119, 2600822924, 528734635, 1541459225]

/-- Merkle–Damgård padding: append `0x80`, zeros to 56 mod 64, then the
bit length as 8 big-endian bytes. -/
def padMessage (msg : List Nat) : List Nat :=
  let padZeros := (55 - msg.length % 64 + 64) % 64
  msg ++ [0x80] ++ List.replicate padZeros 0 ++ natToBytesBE 8 (msg.length * 8)

/-- Group bytes into big-endian 32-bit words. -/
def bytesToWords : List Nat → List Nat
  | a :: b :: c :: d :: rest => (((a * 256 + b) * 256 + c) * 256 + d) :: bytesToWords rest
  | _ => []

def chunkWordsAux : Nat → List Nat → List (List Nat)
  | 0, _ => []
  | _, [] => []
  | fuel + 1, ws => ws.take 16 :: chunkWordsAux fuel (ws.drop 16)

/-- Split a word list into 16-word blocks. -/
def chunkWords (ws : List Nat) : List (List Nat) :=
  chunkWordsAux ws.length ws

/-- Extend a 16-word block by `n` further schedule words. -/
def extendW : Nat → List Nat → List Nat
  | 0, acc => acc
  | n + 1, acc =>
    let t := acc.length
    let w := w32 (smallSigma1 (acc.getD (t - 2) 0) + acc.getD (t - 7) 0 +
                  smallSigma0 (acc.getD (t - 15) 0) + acc.getD (t - 16) 0)
    extendW n (acc ++ [w])

/-- One SHA-256 compression round on the state `[a,b,c,d,e,f,g,h]`. -/
def sha256Round (st : List Nat) (wk : Nat × Nat) : List Nat :=
  match st with
  | [a, b, c, d, e, f, g, h] =>
    let t1 := w32 (h + bigSigma1 e + chFn e f g + wk.2 + wk.1)
    let t2 := w32 (bigSigma0 a + majFn a b c)
    [w32 (t1 + t2), a, b, c, w32 (d + t1), e, f, g]
  | other => other

/-- Compress one 16-word block into the running hash state. -/
def sha256Compress (hs : List Nat) (block : List Nat) : List Nat :=
  let ws := extendW 48 block
  let fin := (ws.zip sha256K).foldl sha256Round hs
  (hs.zip fin).map fun p => w32 (p.1 + p.2)

/-- SHA-256 of a byte list, as a 32-byte list. -/
def sha256 (msg : List Nat) : List Nat :=
  let hs := (chunkWords (bytesToWords (padMessage msg))).foldl sha256Compress sha256H0
  (hs.map (natToBytesBE 4)).flatten

/-! ## Base58 decoding (`new PublicKey(base58String)` and `toBuffer()`) -/

/-- The Bitcoin/Solana base58 alphabet. -/
def base58Alphabet : List Char :=
  "123456789ABCDEFGHJKLMNPQRSTUVWXYZabcdefghijkmnopqrstuvwxyz".toList

/-- Decode a base58 string to the natural number it denotes, or `none` on a
character outside the alphabet. -/
def base58DecodeNat (s : String) : Option Nat :=
  s.toList.foldl
    (fun acc c => acc.bind fun a =>
      (base58Alphabet.findIdx? (· = c)).map fun d => a * 58 + d)
    (some 0)

/-- Model of `new web3.PublicKey(s).toBuffer()`: decode the base58 string and left-pad
the big-endian magnitude to 32 bytes. -/
def pubkeyFromBase58 (s : String) : Option (List Nat) :=
  (base58DecodeNat s).bind fun n =>
    if n < 2 ^ 256 then some (natToBytesBE 32 n) else none

/-! ## ed25519 decompression check (`is_on_curve` from the SDK, after
the function unpackneg of tweetnacl) -/

/-- The ed25519 field prime `2 ^ 255 - 19`. -/
def ed25519P : Nat :=
  57896044618658097711785492504343953926634992332820282019728792003956564819949

/-- The twisted Edwards curve constant `d = -121665/121666 mod p`. -/
def ed25519D : Nat :=
  37095705934669439343138083508754565189542113879843219016388785533085940283555

/-- A square root of `-1 mod p`, as `2 ^ ((p-1)/4) mod p` (the constant called
I in tweetnacl). -/
def ed25519I : Nat := powMod 2 ((ed25519P - 1) / 4) ed25519P

/-- Whether a 32-byte string decompresses to a point of the ed25519 curve:
read `y` little-endian with the top bit masked, set `num = y^2 - 1` and
`den = d*y^2 + 1`, compute the square-root candidate
`x = num * den^3 * (num * den^7)^((p-5)/8)` and accept iff `x^2 * den`
equals `num` directly or after multiplying `x` by `sqrt(-1)`. -/
def isOnCurve (bytes : List Nat) : Bool :=
  let p := ed25519P
  let y := leDecode bytes % 2 ^ 255 % p
  let num := (y * y + p - 1) % p
  let den := (ed25519D * (y * y) + 1) % p
  let t := powMod (num * powMod den 7 p % p) ((p - 5) / 8) p
  let x := num * powMod den 3 p % p * t % p
  let chk := x * x % p * den % p
  if chk = num then true
  else
    let x2 := x * ed25519I % p
    x2 * x2 % p * den % p = num

/-! ## Program-derived addresses (`PublicKey.createProgramAddress` /
`PublicKey.findProgramAddress` from `@solana/web3.js`) -/

/-- The domain-separation marker `"ProgramDerivedAddress"` appended to the
hashed material. -/
def pdaMarker : List Nat := strBytes "ProgramDerivedAddress"

/-- Model of `PublicKey.createProgramAddress(seeds, programId)`: hash the concatenated
seeds, the program id bytes and the marker with SHA-256; the digest is the
address unless it lies on the ed25519 curve, in which case the call throws
(here: `none`). -/
def createProgramAddress (seeds : List (List Nat)) (programId : List Nat) :
    Option (List Nat) :=
  let digest := sha256 (seeds.flatten ++ programId ++ pdaMarker)
  if isOnCurve digest then none else some digest

def findProgramAddressAux (seeds : List (List Nat)) (programId : List Nat) :
    Nat → Option (List Nat × Nat)
  | 0 => none
  | nonce + 1 =>
    match createProgramAddress (seeds ++ [[nonce + 1]]) programId with
    | some addr => some (addr, nonce + 1)
    | none => findProgramAddressAux seeds programId nonce

/-- Model of `PublicKey.findProgramAddress(seeds, programId)`: try bump seeds 255 down
to 1, returning the first off-curve address together with its bump; `none`
models the thrown error (no viable nonce, or a seed over the 32-byte limit,
which `createProgramAddress` rejects with a `TypeError`). -/
def findProgramAddress (seeds : List (List Nat)) (programId : List Nat) :
    Option (List Nat × Nat) :=
  if seeds.all (fun s => s.length ≤ 32) then
    findProgramAddressAux seeds programId 255
  else none

/-! ## SDK constants used by the script -/

/-- The hardcoded target program id, `PROGRAM_ID` in `src/index.ts`:
`new web3.PublicKey("4QPCBtQ1qSwTmUy9yrGZoqCjZPen8eCE2HcHtKeNWYj6")`. -/
def PROGRAM_ID : List Nat :=
  (pubkeyFromBase58 "4QPCBtQ1qSwTmUy9yrGZoqCjZPen8eCE2HcHtKeNWYj6").getD []

/-- The SDK constant `web3.SystemProgram.programId`
(`"11111111111111111111111111111111"`, i.e. 32 zero bytes). -/
def systemProgramId : List Nat :=
  (pubkeyFromBase58 "11111111111111111111111111111111").getD []

/-- The SDK constant `splToken.TOKEN_PROGRAM_ID`
(`"TokenkegQfeZyiNwAJbNbGKPFXCWuBvf9Ss623VQ5DA"`). -/
def tokenProgramId : List Nat :=
  (pubkeyFromBase58 "TokenkegQfeZyiNwAJbNbGKPFXCWuBvf9Ss623VQ5DA").getD []

/-- The SDK constant `web3.SYSVAR_RENT_PUBKEY`
(`"SysvarRent111111111111111111111111111111111"`). -/
def SYSVAR_RENT_PUBKEY : List Nat :=
  (pubkeyFromBase58 "SysvarRent111111111111111111111111111111111").getD []

/-! ## Transaction data model (`web3.TransactionInstruction`, `web3.Transaction`) -/

/-- One account reference of an instruction: the `keys` entries
`{pubkey, isSigner, isWritable}`. -/
structure AccountMeta where
  pubkey : List Nat
  isSigner : Bool
  isWritable : Bool
deriving DecidableEq, Repr

/-- Model of `new web3.TransactionInstruction({keys, programId, data})`. -/
structure TransactionInstruction where
  keys : List AccountMeta
  programId : List Nat
  data : List Nat
deriving DecidableEq, Repr

/-- Model of `new web3.Transaction()`: the instruction list (initially empty). -/
structure Transaction where
  instructions : List TransactionInstruction
deriving DecidableEq, Repr

/-- Model of `tx.add(ix)`: appends the instruction. -/
def Transaction.add (tx : Transaction) (ix : TransactionInstruction) : Transaction :=
  ⟨tx.instructions ++ [ix]⟩

/-! ## The instruction builder (`initializeProgramTokenMint` in `src/index.ts`) -/

/-- The pure part of `initializeProgramTokenMint(connection, signer, programId)`:
derive `tokenMint` and `tokenAuth` from the hardcoded `PROGRAM_ID` (the
`programId` argument is never read), build the six-account instruction with
data `Buffer.from([3])`, and add it to a fresh transaction.  `none` models a
thrown derivation error. -/
def initializeProgramTokenMintTx (signerPub programId : List Nat) :
    Option Transaction :=
  match findProgramAddress [strBytes "token_mint"] PROGRAM_ID with
  | none => none
  | some (tokenMint, _) =>
    match findProgramAddress [strBytes "token_auth"] PROGRAM_ID with
    | none => none
    | some (tokenAuth, _) =>
      let tx : Transaction := ⟨[]⟩
      let ix : TransactionInstruction :=
        { keys :=
            [{ pubkey := signerPub, isSigner := true, isWritable := false },
             { pubkey := tokenMint, isSigner := false, isWritable := true },
             { pubkey := tokenAuth, isSigner := false, isWritable := false },
             { pubkey := systemProgramId, isSigner := false, isWritable := false },
             { pubkey := tokenProgramId, isSigner := false, isWritable := false },
             { pubkey := SYSVAR_RENT_PUBKEY, isSigner := false, isWritable := false }],
          programId := PROGRAM_ID,
          data := [3] }
      some (tx.add ix)

/-- The whole of `initializeProgramTokenMint` including the final
`sendAndConfirmTransaction` call, with the network collaborator abstracted
as `submit` (it returns the transaction id string or throws). -/
def initializeProgramTokenMint
    (submit : Transaction → Except String String)
    (signerPub programId : List Nat) : Except String String :=
  match initializeProgramTokenMintTx signerPub programId with
  | none => .error "Unable to find a viable program address nonce"
  | some tx => submit tx

/-! ## `main` and the top-level `.then`/`.catch` handler -/

/-- Modelled from the spec: the identity collaborator (`initializeKeypair`,
whose source is not included under `src/`) "supplies or loads a
signing keypair"; it is abstracted as a value that either yields the
public key of the signer, or throws. -/
def mainRun (signerInit : Except String (List Nat))
    (submit : Transaction → Except String String) : Except String String :=
  match signerInit with
  | .error e => .error e
  | .ok signer => initializeProgramTokenMint submit signer PROGRAM_ID

/-- The explorer URL `main` logs on success:
`https://explorer.solana.com/tx/TXID?cluster=devnet`. -/
def explorerMessage (txid : String) : String :=
  "Transaction submitted: https://explorer.solana.com/tx/" ++ txid ++ "?cluster=devnet"

/-- The whole process: `main().then(...).catch(...)`.  Returns the list of
logged lines and the exit code: on success `main` logs the explorer URL,
the `.then` handler logs `"Finished successfully"` and exits 0; on any
thrown error the `.catch` handler logs the error and exits 1. -/
def processRun (signerInit : Except String (List Nat))
    (submit : Transaction → Except String String) : List String × Nat :=
  match mainRun signerInit submit with
  | .ok txid => ([explorerMessage txid, "Finished successfully"], 0)
  | .error e => ([e], 1)

/-! ## The derived addresses as named values -/

/-- The function `derive(programId, seed)` of the spec: the PDA found for the single
ASCII seed. -/
def derive (programId : List Nat) (seed : String) : Option (List Nat) :=
  (findProgramAddress [strBytes seed] programId).map Prod.fst

/-- The `tokenMint` address the script derives (seed `"token_mint"`,
hardcoded `PROGRAM_ID`). -/
def tokenMintAddr : List Nat := (derive PROGRAM_ID "token_mint").getD []

/-- The `tokenAuth` address the script derives (seed `"token_auth"`,
hardcoded `PROGRAM_ID`). -/
def tokenAuthAddr : List Nat := (derive PROGRAM_ID "token_auth").getD []

/-- A concrete signer public key used by closed witness statements. -/
def demoSigner : List Nat := List.replicate 32 1

/-! ## Computed values of the derivations

The three lemmas below are the only proofs that make the kernel run the
full SHA-256 / curve-check pipeline; everything later rewrites with them. -/

/-- The PDA search for seed `"token_mint"` under the hardcoded program id
terminates at bump 254 with the digest below. -/
lemma findTM_eq :
    findProgramAddress [strBytes "token_mint"] PROGRAM_ID =
    some ([243, 116, 71, 29, 78, 136, 164, 222, 88, 187, 52, 129, 52, 142, 128, 151,
           178, 88, 186, 75, 110, 189, 182, 19, 56, 40, 180, 101, 36, 55, 145, 78], 254) := by
  rfl

/-- The PDA search for seed `"token_auth"` under the hardcoded program id
terminates at bump 253 with the digest below. -/
lemma findTA_eq :
    findProgramAddress [strBytes "token_auth"] PROGRAM_ID =
    some ([22, 71, 128, 25, 242, 152, 186, 146, 68, 88, 188, 255, 1, 168, 46, 119,
           29, 28, 190, 143, 129, 250, 227, 110, 178, 53, 201, 207, 147, 206, 204, 78], 253) := by
  rfl

/-- The PDA search for seed `"token_mint"` under the system program id (a
program id different from the hardcoded one) yields a different digest. -/
lemma findTM_sys_eq :
    findProgramAddress [strBytes "token_mint"] systemProgramId =
    some ([174, 94, 98, 15, 45, 128, 242, 160, 20, 172, 143, 66, 138, 174, 37, 168,
           167, 201, 213, 153, 38, 161, 8, 135, 212, 190, 181, 187, 165, 184, 7, 131], 254) := by
  rfl

lemma tokenMintAddr_eq :
    tokenMintAddr =
    [243, 116, 71, 29, 78, 136, 164, 222, 88, 187, 52, 129, 52, 142, 128, 151,
     178, 88, 186, 75, 110, 189, 182, 19, 56, 40, 180, 101, 36, 55, 145, 78] := by
  unfold tokenMintAddr derive
  rw [findTM_eq]
  rfl

lemma tokenAuthAddr_eq :
    tokenAuthAddr =
    [22, 71, 128, 25, 242, 152, 186, 146, 68, 88, 188, 255, 1, 168, 46, 119,
     29, 28, 190, 143, 129, 250, 227, 110, 178, 53, 201, 207, 147, 206, 204, 78] := by
  unfold tokenAuthAddr derive
  rw [findTA_eq]
  rfl

/-- Closed form of the builder: for every signer and every `programId`
argument it succeeds and returns the one fixed six-account instruction
(the `programId` argument is never consulted). -/
lemma initTx_eq (signerPub programId : List Nat) :
    initializeProgramTokenMintTx signerPub programId =
    some ⟨[{ keys :=
              [{ pubkey := signerPub, isSigner := true, isWritable := false },
               { pubkey := tokenMintAddr, isSigner := false, isWritable := true },
               { pubkey := tokenAuthAddr, isSigner := false, isWritable := false },
               { pubkey := systemProgramId, isSigner := false, isWritable := false },
               { pubkey := tokenProgramId, isSigner := false, isWritable := false },
               { pubkey := SYSVAR_RENT_PUBKEY, isSigner := false, isWritable := false }],
             programId := PROGRAM_ID,
             data := [3] }]⟩ := by
  unfold initializeProgramTokenMintTx
  rw [findTM_eq, findTA_eq, tokenMintAddr_eq, tokenAuthAddr_eq]
  rfl

/-! ## The claims -/

/-- C1: for every signer identity and program identifier, the instruction
produced by `initializeProgramTokenMint` has an account list of exactly 6
entries, in the fixed order signer (signer, read-only), tokenMint
(writable), tokenAuth, system program, token program, rent sysvar, with
exactly the enumerated flags. -/
theorem account_list_exact (signerPub programId : List Nat) :
    (initializeProgramTokenMintTx signerPub programId).map
      (fun tx => tx.instructions.map TransactionInstruction.keys) =
    some [[{ pubkey := signerPub, isSigner := true, isWritable := false },
           { pubkey := tokenMintAddr, isSigner := false, isWritable := true },
           { pubkey := tokenAuthAddr, isSigner := false, isWritable := false },
           { pubkey := systemProgramId, isSigner := false, isWritable := false },
           { pubkey := tokenProgramId, isSigner := false, isWritable := false },
           { pubkey := SYSVAR_RENT_PUBKEY, isSigner := false, isWritable := false }]] := by
  rw [initTx_eq]
  rfl

/-- C2 (counterexample): with the system program id passed as the
`programId` argument, the tokenMint account of the built instruction is
*not* the address derived from that argument — the code derives from the
hardcoded `PROGRAM_ID` instead. -/
theorem derive_param_cex :
    ¬ ((initializeProgramTokenMintTx demoSigner systemProgramId).map
        (fun tx => tx.instructions.map fun ix => (ix.keys.map AccountMeta.pubkey).getD 1 []) =
       some [(derive systemProgramId "token_mint").getD []]) := by
  rw [initTx_eq, tokenMintAddr_eq]
  unfold derive
  rw [findTM_sys_eq]
  decide

/-- C2 (amended): the builder derives `tokenMint` and `tokenAuth` from the
*hardcoded* `PROGRAM_ID` constant with seeds `"token_mint"` and
`"token_auth"` (the derivation being a pure function of program id and
seed), regardless of the `programId` argument. -/
theorem derive_uses_hardcoded_id (signerPub programId : List Nat) :
    (initializeProgramTokenMintTx signerPub programId).map
      (fun tx => tx.instructions.map fun ix => (ix.keys.map AccountMeta.pubkey).take 3) =
    some [[signerPub, (derive PROGRAM_ID "token_mint").getD [],
           (derive PROGRAM_ID "token_auth").getD []]] := by
  rw [initTx_eq]
  rfl

/-- C3: for every signer identity and program identifier, the data payload
of the produced instruction is exactly the single byte `3`. -/
theorem opcode_payload (signerPub programId : List Nat) :
    (initializeProgramTokenMintTx signerPub programId).map
      (fun tx => tx.instructions.map TransactionInstruction.data) =
    some [[3]] := by
  rw [initTx_eq]
  rfl

/-- C4: with the documented program id, the 4th, 5th and 6th account
entries of the built instruction are the system program, token program and
rent sysvar identifiers, and they are identical across any two signer
identities. -/
theorem tail_accounts_fixed (s1 s2 : List Nat) :
    (initializeProgramTokenMintTx s1 PROGRAM_ID).map
        (fun tx => tx.instructions.map fun ix => (ix.keys.map AccountMeta.pubkey).drop 3) =
      some [[systemProgramId, tokenProgramId, SYSVAR_RENT_PUBKEY]] ∧
    (initializeProgramTokenMintTx s1 PROGRAM_ID).map
        (fun tx => tx.instructions.map fun ix => (ix.keys.map AccountMeta.pubkey).drop 3) =
      (initializeProgramTokenMintTx s2 PROGRAM_ID).map
        (fun tx => tx.instructions.map fun ix => (ix.keys.map AccountMeta.pubkey).drop 3) := by
  constructor
  · rw [initTx_eq]
    rfl
  · rw [initTx_eq, initTx_eq]
    rfl

/-- C5: the transaction submitted by `initializeProgramTokenMint` contains
exactly one instruction, namely the single built initialization
instruction. -/
theorem single_instruction (signerPub programId : List Nat) :
    (initializeProgramTokenMintTx signerPub programId).map
        (fun tx => tx.instructions.length) = some 1 ∧
    (initializeProgramTokenMintTx signerPub programId).map
        Transaction.instructions =
      some [{ keys :=
                [{ pubkey := signerPub, isSigner := true, isWritable := false },
                 { pubkey := tokenMintAddr, isSigner := false, isWritable := true },
                 { pubkey := tokenAuthAddr, isSigner := false, isWritable := false },
                 { pubkey := systemProgramId, isSigner := false, isWritable := false },
                 { pubkey := tokenProgramId, isSigner := false, isWritable := false },
                 { pubkey := SYSVAR_RENT_PUBKEY, isSigner := false, isWritable := false }],
              programId := PROGRAM_ID,
              data := [3] }] := by
  constructor
  · rw [initTx_eq]
    rfl
  · rw [initTx_eq]
    rfl

/-- C6: if any step of the run throws, the error propagates unchanged to
the top level, is the only line printed, and the process exits with code 1
— in particular no success output is produced. -/
theorem failure_propagates (signerInit : Except String (List Nat))
    (submit : Transaction → Except String String) (e : String)
    (h : mainRun signerInit submit = .error e) :
    processRun signerInit submit = ([e], 1) ∧
    ∀ s ∈ (processRun signerInit submit).1, s = e := by
  have hp : processRun signerInit submit = ([e], 1) := by
    unfold processRun
    rw [h]
  refine ⟨hp, ?_⟩
  rw [hp]
  intro s hs
  simpa using hs

/-- Witness for C6: a submission collaborator that throws makes the process
log exactly the error and exit with code 1. -/
theorem failure_propagates_witness :
    processRun (.ok demoSigner) (fun _ => .error "node is unreachable") =
    (["node is unreachable"], 1) :=
  (failure_propagates (.ok demoSigner) (fun _ => .error "node is unreachable")
    "node is unreachable"
    (by simp only [mainRun, initializeProgramTokenMint, initTx_eq])).1

/-- C7: if the run succeeds, the process prints the explorer URL built from
the transaction id returned by the submission collaborator, then the
success line, and exits with code 0. -/
theorem success_prints_url (signerInit : Except String (List Nat))
    (submit : Transaction → Except String String) (txid : String)
    (h : mainRun signerInit submit = .ok txid) :
    processRun signerInit submit =
    ([explorerMessage txid, "Finished successfully"], 0) := by
  unfold processRun
  rw [h]

/-- Witness for C7: a submission collaborator returning a transaction id
makes the process log the explorer URL and the success line and exit 0. -/
theorem success_prints_url_witness :
    processRun (.ok demoSigner) (fun _ => .ok "5VERYrealTX") =
    ([explorerMessage "5VERYrealTX", "Finished successfully"], 0) :=
  success_prints_url (.ok demoSigner) (fun _ => .ok "5VERYrealTX") "5VERYrealTX"
    (by simp only [mainRun, initializeProgramTokenMint, initTx_eq])

/-- C8: the derivation is deterministic (it is a pure function: repeated
calls on fixed arguments agree), and the built instruction is identical
across any two runs once the identity of the signer is set aside — for a fixed
signer the whole result is identical, and for two different signers
everything but the signer entry is. -/
theorem builder_deterministic (s1 s2 pid1 pid2 : List Nat) (seed : String) :
    derive pid1 seed = derive pid1 seed ∧
    initializeProgramTokenMintTx s1 pid1 = initializeProgramTokenMintTx s1 pid2 ∧
    (initializeProgramTokenMintTx s1 pid1).map
        (fun tx => tx.instructions.map fun ix => (ix.keys.drop 1, ix.programId, ix.data)) =
      (initializeProgramTokenMintTx s2 pid2).map
        (fun tx => tx.instructions.map fun ix => (ix.keys.drop 1, ix.programId, ix.data)) := by
  refine ⟨rfl, rfl, ?_⟩
  rw [initTx_eq, initTx_eq]
  rfl

/-- C9: under the documented program id, the address derived from seed
`"token_mint"` differs from the address derived from seed `"token_auth"`. -/
theorem distinct_pdas :
    derive PROGRAM_ID "token_mint" ≠ derive PROGRAM_ID "token_auth" ∧
    tokenMintAddr ≠ tokenAuthAddr := by
  constructor
  · unfold derive
    rw [findTM_eq, findTA_eq]
    decide
  · rw [tokenMintAddr_eq, tokenAuthAddr_eq]
    decide

/-- C10: the output of the builder does not depend on the `programId` argument —
the derived addresses and the target program id of the instruction all come from
the hardcoded `PROGRAM_ID` constant. -/
theorem programId_param_ignored (signerPub pid1 pid2 : List Nat) :
    initializeProgramTokenMintTx signerPub pid1 =
      initializeProgramTokenMintTx signerPub pid2 ∧
    (initializeProgramTokenMintTx signerPub pid1).map
        (fun tx => tx.instructions.map TransactionInstruction.programId) =
      some [PROGRAM_ID] := by
  refine ⟨rfl, ?_⟩
  rw [initTx_eq]
  rfl

end MovieTokenClient
